import Mathlib

/-
Verification of the floor-plan core of `app.py`:
  - `generate_floor_plan_data` (lines 52-67): fence stripping, JSON parsing
    and structural validation of the AI payload, and
  - `render_floor_plan` (lines 70-112): the PIL-based raster renderer.

The embedding keeps the source's dynamic dictionary accesses as `Option`
fields: a missing JSON key is `none`, and the `KeyError` control flow of
the Python code becomes explicit `Option`/`Except` matching.  Numbers are
rationals.  PIL drawing calls are recorded as a list of draw operations;
the PNG byte serialization is modelled as the image content (canvas size,
background, ordered draw operations) without the warning side channel.
The JSON parser (`json.loads`) is external library code, so the validator
is parameterized over an abstract parse function from the stripped text
to either a payload or a parse diagnostic.
-/

set_option autoImplicit false

namespace FloorPlan

/-- An RGB color triple, as used by the `room_colors` table in `app.py`. -/
structure Color where
  r : Nat
  g : Nat
  b : Nat
deriving DecidableEq

/-- PIL color name "black". -/
def black : Color := ⟨0, 0, 0⟩

/-- PIL color name "white". -/
def white : Color := ⟨255, 255, 255⟩

/-- A JSON number as Python types it after `json.loads`: `int` when the
literal has no decimal point, `float` otherwise (so `10.0` is a float).
The distinction matters at line 78: `Image.new` accepts only int-typed
sizes and raises `TypeError` on a float, and multiplying by the int
constant `scale` preserves the operand's type. -/
inductive PyNum where
  | intVal (n : Int)
  | floatVal (q : ℚ)
deriving DecidableEq

/-- The numeric value of the number. -/
def PyNum.toRat : PyNum → ℚ
  | .intVal n => (n : ℚ)
  | .floatVal q => q

/-- Whether the number is float-typed. -/
def PyNum.isFloat : PyNum → Bool
  | .intVal _ => false
  | .floatVal _ => true

/-- The `dimensions` object of the payload; either key may be absent, and
each value keeps its Python numeric type.  Room geometry below stays
plain rational: PIL's drawing calls accept floats, so only the canvas
size is type-sensitive. -/
structure RawDims where
  length : Option PyNum
  breadth : Option PyNum
deriving DecidableEq

/-- One entry of the `rooms` list; every key may be absent, mirroring the
dynamic dictionary the JSON parser returns. -/
structure RawRoom where
  name : Option String
  type : Option String
  x : Option ℚ
  y : Option ℚ
  width : Option ℚ
  height : Option ℚ
deriving DecidableEq

/-- The top-level payload: the parsed JSON object with its two sections,
either of which may be absent. -/
structure PlanData where
  dimensions : Option RawDims
  rooms : Option (List RawRoom)
deriving DecidableEq

/-- The font handle: `ImageFont.truetype("arial.ttf", size)` on success,
`ImageFont.load_default()` when the truetype load raises `IOError`. -/
inductive Font where
  | arial (size : Int)
  | builtin
deriving DecidableEq

/-- One recorded PIL drawing call: `draw.rectangle` with the coordinate
box, optional fill, outline color and stroke width, or `draw.text` with
position, string, fill and font. -/
inductive DrawOp where
  | rect (x0 y0 x1 y1 : ℚ) (fill : Option Color) (outline : Color) (w : ℚ)
  | text (x y : ℚ) (s : String) (fill : Color) (font : Font)
deriving DecidableEq

/-- Whether a draw operation is a text-label call. -/
def DrawOp.isText : DrawOp → Bool
  | .text _ _ _ _ _ => true
  | .rect _ _ _ _ _ _ _ => false

/-- The fixed pixels-per-foot factor: `scale = 20` in `render_floor_plan`. -/
def scale : ℚ := 20

/-- The `room_colors` dictionary of `render_floor_plan`, in source order. -/
def room_colors : List (String × Color) :=
  [("living_room", ⟨255, 200, 200⟩),
   ("kitchen", ⟨200, 255, 200⟩),
   ("bedroom", ⟨200, 200, 255⟩),
   ("bathroom", ⟨255, 255, 200⟩),
   ("door", ⟨100, 50, 0⟩),
   ("hallway", ⟨230, 230, 230⟩),
   ("default", ⟨240, 240, 240⟩)]

/-- Python `dict.get(k)` on the color table: the first binding of the key,
if any. -/
def dict_get (d : List (String × Color)) (k : String) : Option Color :=
  (d.find? (fun p => p.1 == k)).map (fun p => p.2)

/-- The color bound to the "default" key of `room_colors`. -/
def default_color : Color := ⟨240, 240, 240⟩

/-- Line 98: `room_colors.get(item.get('type', 'default'), room_colors['default'])`.
The inner `getD black` arm is unreachable because the table binds "default". -/
def resolve_color (ty : Option String) : Color :=
  (dict_get room_colors (ty.getD "default")).getD
    ((dict_get room_colors "default").getD black)

/-- Line 81: `font_size = max(10, int(scale * 0.7))`; `int` truncates, and
the argument is positive, so it is the floor. -/
def font_size : Int := max 10 (Rat.floor (scale * (7 / 10)))

/-- Lines 80-84: try `ImageFont.truetype("arial.ttf", font_size)`, fall
back to the built-in default font on `IOError`.  Whether the truetype file
is available is an environment fact, passed in as a flag. -/
def make_font (arial_available : Bool) : Font :=
  if arial_available then .arial font_size else .builtin

/-- Lines 96-104: the body of the per-room loop up to the point where an
exception could escape.  Reading a missing geometry key raises `KeyError`
(modelled as `.error` carrying the key name, in the source's left-to-right
evaluation order); otherwise the rectangle and optional label calls are
recorded. -/
def draw_item (font : Font) (item : RawRoom) : Except String (List DrawOp) :=
  match item.x with
  | none => .error "x"
  | some xf =>
    match item.y with
    | none => .error "y"
    | some yf =>
      match item.width with
      | none => .error "width"
      | some wf =>
        match item.height with
        | none => .error "height"
        | some hf =>
          let x := xf * scale
          let y := yf * scale
          let w := wf * scale
          let h := hf * scale
          let color := resolve_color item.type
          let rect_op :=
            if item.type = some "door" then
              DrawOp.rect x y (x + w) (y + h) (some color) color 1
            else
              DrawOp.rect x y (x + w) (y + h) (some color) black 1
          let label_ops :=
            match item.name with
            | some nm =>
              if nm ≠ "" ∧ item.type ≠ some "door" then
                [DrawOp.text (x + 5) (y + 5) nm black font]
              else []
            | none => []
          .ok (rect_op :: label_ops)

/-- Lines 95-108: the room loop.  A failing item contributes no draw
operations and one `st.warning` message (the interpolated item repr is
elided); a succeeding item contributes its operations in order. -/
def draw_rooms (font : Font) : List RawRoom → List DrawOp × List String
  | [] => ([], [])
  | item :: rest =>
    match draw_item font item with
    | .ok ops =>
      let tail := draw_rooms font rest
      (ops ++ tail.1, tail.2)
    | .error e =>
      let tail := draw_rooms font rest
      (tail.1, ("Skipping malformed room data: " ++ e) :: tail.2)

/-- The finished raster: canvas pixel extent, background fill, the ordered
drawing calls (border first, then rooms), and the warnings emitted. -/
structure RenderResult where
  img_width : ℚ
  img_height : ℚ
  background : Color
  ops : List DrawOp
  warnings : List String
deriving DecidableEq

/-- The observable outcome of `render_floor_plan`: the returned image
buffer, the `None` return of the `except KeyError` branch (lines 75-76),
or the uncaught `TypeError` that `Image.new` raises at line 78 when the
computed size is float-typed — the `try` block covers only the dimension
reads, so this exception propagates out of the function. -/
inductive RenderOutcome where
  | image (res : RenderResult)
  | noneReturn
  | typeError
deriving DecidableEq

/-- Lines 70-112: `render_floor_plan(data)`.  The `try`/`except KeyError`
around the dimension reads returns `None` exactly when `dimensions`, or
its `length` or `breadth` key, is absent.  `Image.new` then raises an
uncaught `TypeError` when `length * scale` or `breadth * scale` is
float-typed (any dimension written with a decimal point); otherwise the
white canvas is created at `(length*scale, breadth*scale)`, the 3-wide
black border is stroked, and `data.get('rooms', [])` is iterated. -/
def render_floor_plan (arial_available : Bool) (data : PlanData) :
    RenderOutcome :=
  match data.dimensions with
  | none => .noneReturn
  | some dims =>
    match dims.length with
    | none => .noneReturn
    | some l =>
      match dims.breadth with
      | none => .noneReturn
      | some b =>
        if l.isFloat || b.isFloat then .typeError
        else
          let img_width := l.toRat * scale
          let img_height := b.toRat * scale
          let font := make_font arial_available
          let border := DrawOp.rect 0 0 img_width img_height none black 3
          let rooms := draw_rooms font (data.rooms.getD [])
          .image ⟨img_width, img_height, white, border :: rooms.1, rooms.2⟩

/-- Lines 109-112: the PNG serialization of the finished image.  The bytes
are a function of the canvas content alone (size, background, draw calls);
warnings go to the UI, not into the file. -/
def image_bytes (res : RenderResult) : ℚ × ℚ × Color × List DrawOp :=
  (res.img_width, res.img_height, res.background, res.ops)

/-- The serialized bytes produced by a render outcome: the PNG content
when an image is returned, nothing on the `None` return or the uncaught
exception. -/
def outcome_bytes : RenderOutcome → Option (ℚ × ℚ × Color × List DrawOp)
  | .image res => some (image_bytes res)
  | .noneReturn => none
  | .typeError => none

/-- Python `str.lstrip(cs)`: drop leading characters belonging to the set. -/
def lstrip_set (cs : List Char) (s : String) : String :=
  ⟨s.data.dropWhile (fun c => cs.contains c)⟩

/-- Python `str.rstrip(cs)`: drop trailing characters belonging to the set. -/
def rstrip_set (cs : List Char) (s : String) : String :=
  ⟨(s.data.reverse.dropWhile (fun c => cs.contains c)).reverse⟩

/-- Line 54: `response.text.strip().lstrip("\x60\x60\x60json").rstrip("\x60\x60\x60")`.
Python treats the `lstrip`/`rstrip` arguments as character sets. -/
def strip_fences (s : String) : String :=
  rstrip_set ['\x60'] (lstrip_set ['\x60', 'j', 's', 'o', 'n'] s.trim)

/-- The outcome of lines 52-67: the returned plan, or the `st.error`
diagnostic paired with the `None` return.  `malformed` is the
`json.JSONDecodeError` branch and carries the parse diagnostic;
`incompleteSchema` is the `ValueError` branch for a missing top-level key. -/
inductive ValidationResult where
  | plan (p : PlanData)
  | malformed (diag : String)
  | incompleteSchema (diag : String)
deriving DecidableEq

/-- The `ValueError` message of line 57 (quotation marks elided). -/
def schema_error_msg : String := "Missing dimensions or rooms in AI response."

/-- Lines 52-67 of `generate_floor_plan_data`, after the model call: strip
the fence characters, parse (`json.loads`, abstracted as the `parse`
argument), and reject the payload when `dimensions` or `rooms` is absent. -/
def generate_floor_plan_data (parse : String → Except String PlanData)
    (response_text : String) : ValidationResult :=
  match parse (strip_fences response_text) with
  | .error e => .malformed e
  | .ok fp =>
    if fp.dimensions.isNone || fp.rooms.isNone then
      .incompleteSchema schema_error_msg
    else
      .plan fp

/-- Sample room payloads used by the concrete witnesses below. -/
def good_sample : RawRoom :=
  ⟨some "Bedroom", some "bedroom", some 0, some 0, some 5, some 5⟩

/-- A doorway entry with a name present. -/
def door_sample : RawRoom :=
  ⟨some "Entry", some "door", some 1, some 2, some 3, some 4⟩

/-- A room whose type differs from "door" only in case. -/
def cap_door_sample : RawRoom :=
  ⟨some "Entry", some "Door", some 1, some 2, some 3, some 4⟩

/-- C1 counterexample: at length 10.5 — a positive real, but float-typed
after JSON parsing — `Image.new` raises an uncaught `TypeError` at line
78, so no image is returned even though both dimensions are positive and
rooms is a list. -/
theorem render_canvas_dimensions_cex :
    (0 : ℚ) < (PyNum.floatVal (21 / 2)).toRat ∧
      (0 : ℚ) < (PyNum.intVal 8).toRat ∧
      render_floor_plan true
          ⟨some ⟨some (.floatVal (21 / 2)), some (.intVal 8)⟩, some []⟩ =
        .typeError :=
  ⟨by norm_num [PyNum.toRat], by norm_num [PyNum.toRat], rfl⟩

/-- C1 (amended): for every plan whose dimensions are positive int-typed
numbers (JSON literals without a decimal point) and whose rooms field is
a list, `render_floor_plan` returns a non-null image whose pixel
dimensions are `length * scale` and `breadth * scale`, with `scale` the
fixed constant 20 pixels per foot; a float-typed dimension instead makes
`Image.new` raise an uncaught `TypeError`. -/
theorem render_canvas_dimensions (a : Bool) (l b : Int) (rs : List RawRoom)
    (hl : 0 < l) (hb : 0 < b) :
    ∃ res, render_floor_plan a
        ⟨some ⟨some (.intVal l), some (.intVal b)⟩, some rs⟩ = .image res ∧
      res.img_width = (l : ℚ) * scale ∧ res.img_height = (b : ℚ) * scale ∧
      scale = 20 :=
  ⟨_, rfl, rfl, rfl, rfl⟩

/-- Witness for C1 at a concrete 10 by 8 foot plan. -/
theorem render_canvas_dimensions_witness :
    (0 : Int) < 10 ∧ (0 : Int) < 8 ∧
      ∃ res, render_floor_plan true
          ⟨some ⟨some (.intVal 10), some (.intVal 8)⟩, some []⟩ = .image res ∧
        res.img_width = ((10 : Int) : ℚ) * scale ∧
        res.img_height = ((8 : Int) : ℚ) * scale ∧ scale = 20 :=
  ⟨by norm_num, by norm_num,
   render_canvas_dimensions true 10 8 [] (by norm_num) (by norm_num)⟩

/-- C7: `render_floor_plan` returns null exactly when the dimension fields
are missing — the `dimensions` key itself, or its `length` or `breadth`
entry; no other input produces the null return (the float-dimension
failure is a raised exception, not a null return). -/
theorem render_none_iff_dimensions_missing (a : Bool) (d : PlanData) :
    render_floor_plan a d = .noneReturn ↔
      (d.dimensions.bind RawDims.length = none ∨
       d.dimensions.bind RawDims.breadth = none) := by
  obtain ⟨dims, rooms⟩ := d
  cases dims with
  | none => simp [render_floor_plan]
  | some dd =>
    obtain ⟨ll, bb⟩ := dd
    cases ll <;> cases bb <;>
      simp [render_floor_plan, Option.bind] <;>
      split <;> simp

/-- C8: rendering is deterministic — two invocations on the same plan in
the same font environment serialize to identical image bytes. -/
theorem render_deterministic (a : Bool) (d₁ d₂ : PlanData) (h : d₁ = d₂) :
    outcome_bytes (render_floor_plan a d₁) =
      outcome_bytes (render_floor_plan a d₂) := by
  rw [h]

/-- Witness for C8 at a concrete plan. -/
theorem render_deterministic_witness :
    (⟨some ⟨some (.intVal 5), some (.intVal 5)⟩, some [good_sample]⟩ : PlanData) =
        ⟨some ⟨some (.intVal 5), some (.intVal 5)⟩, some [good_sample]⟩ ∧
      outcome_bytes (render_floor_plan false
          ⟨some ⟨some (.intVal 5), some (.intVal 5)⟩, some [good_sample]⟩) =
        outcome_bytes (render_floor_plan false
          ⟨some ⟨some (.intVal 5), some (.intVal 5)⟩, some [good_sample]⟩) :=
  ⟨rfl, render_deterministic false _ _ rfl⟩

/-- C3: a room whose type is "door" is drawn as one filled rectangle whose
outline color equals its fill color, and no text-label operation is
emitted for it, whatever its name. -/
theorem door_room_same_outline_no_label (f : Font) (item : RawRoom)
    (xv yv wv hv : ℚ) (ht : item.type = some "door")
    (hx : item.x = some xv) (hy : item.y = some yv)
    (hw : item.width = some wv) (hh : item.height = some hv) :
    ∃ c ops, draw_item f item = .ok ops ∧
      ops = [DrawOp.rect (xv * scale) (yv * scale)
        (xv * scale + wv * scale) (yv * scale + hv * scale) (some c) c 1] ∧
      ∀ op ∈ ops, op.isText = false := by
  refine ⟨resolve_color (some "door"),
    [DrawOp.rect (xv * scale) (yv * scale)
      (xv * scale + wv * scale) (yv * scale + hv * scale)
      (some (resolve_color (some "door"))) (resolve_color (some "door")) 1],
    ?_, rfl, ?_⟩
  · cases hn : item.name <;> simp [draw_item, hx, hy, hw, hh, ht, hn]
  · intro op hop
    rw [List.mem_singleton] at hop
    subst hop
    rfl

/-- Witness for C3 at a concrete named doorway. -/
theorem door_room_same_outline_no_label_witness :
    door_sample.type = some "door" ∧ door_sample.x = some 1 ∧
      door_sample.y = some 2 ∧ door_sample.width = some 3 ∧
      door_sample.height = some 4 ∧
      ∃ c ops, draw_item .builtin door_sample = .ok ops ∧
        ops = [DrawOp.rect ((1 : ℚ) * scale) ((2 : ℚ) * scale)
          ((1 : ℚ) * scale + (3 : ℚ) * scale)
          ((2 : ℚ) * scale + (4 : ℚ) * scale) (some c) c 1] ∧
        ∀ op ∈ ops, op.isText = false :=
  ⟨rfl, rfl, rfl, rfl, rfl,
   door_room_same_outline_no_label .builtin door_sample 1 2 3 4
     rfl rfl rfl rfl rfl⟩

/-- C4: the category-to-color lookup is a total function: a type absent
from the color table resolves to the default color, and an absent type
also resolves to the default color. -/
theorem unknown_type_gets_default_color (t : String)
    (h : dict_get room_colors t = none) :
    resolve_color (some t) = default_color ∧ resolve_color none = default_color := by
  constructor
  · simp [resolve_color, h]
    rfl
  · rfl

/-- Witness for C4 at the unrecognized type "doorway". -/
theorem unknown_type_gets_default_color_witness :
    dict_get room_colors "doorway" = none ∧
      resolve_color (some "doorway") = default_color ∧
      resolve_color none = default_color :=
  ⟨by decide, unknown_type_gets_default_color "doorway" (by decide)⟩

/-- C10: the door policy requires the type to equal "door" exactly: any
other type value is drawn as an ordinary room — table-resolved fill,
black outline of width 1, and a text label exactly when a non-empty name
is present. -/
theorem non_door_type_drawn_ordinary (f : Font) (item : RawRoom) (t : String)
    (xv yv wv hv : ℚ) (ht : item.type = some t) (hne : t ≠ "door")
    (hx : item.x = some xv) (hy : item.y = some yv)
    (hw : item.width = some wv) (hh : item.height = some hv) :
    draw_item f item = .ok
      (DrawOp.rect (xv * scale) (yv * scale)
          (xv * scale + wv * scale) (yv * scale + hv * scale)
          (some (resolve_color (some t))) black 1 ::
        (match item.name with
         | some nm =>
           if nm ≠ "" then
             [DrawOp.text (xv * scale + 5) (yv * scale + 5) nm black f]
           else []
         | none => [])) := by
  cases hn : item.name <;>
    simp [draw_item, hx, hy, hw, hh, ht, hn, hne]

/-- Witness for C10: the type "Door" (capitalized) is drawn as an ordinary
labeled room. -/
theorem non_door_type_drawn_ordinary_witness :
    cap_door_sample.type = some "Door" ∧ ("Door" : String) ≠ "door" ∧
      draw_item .builtin cap_door_sample = .ok
        (DrawOp.rect ((1 : ℚ) * scale) ((2 : ℚ) * scale)
            ((1 : ℚ) * scale + (3 : ℚ) * scale)
            ((2 : ℚ) * scale + (4 : ℚ) * scale)
            (some (resolve_color (some "Door"))) black 1 ::
          (match cap_door_sample.name with
           | some nm =>
             if nm ≠ "" then
               [DrawOp.text ((1 : ℚ) * scale + 5) ((2 : ℚ) * scale + 5)
                 nm black .builtin]
             else []
           | none => [])) :=
  ⟨rfl, by decide,
   non_door_type_drawn_ordinary .builtin cap_door_sample "Door" 1 2 3 4
     rfl (by decide) rfl rfl rfl rfl⟩

/-- C5: a payload that parses but lacks the `dimensions` or the `rooms`
key makes the validator return the incomplete-schema failure, so no plan
value is ever returned for it. -/
theorem missing_key_incomplete_schema (parse : String → Except String PlanData)
    (txt : String) (fp : PlanData)
    (hp : parse (strip_fences txt) = .ok fp)
    (h : fp.dimensions = none ∨ fp.rooms = none) :
    generate_floor_plan_data parse txt = .incompleteSchema schema_error_msg := by
  unfold generate_floor_plan_data
  rw [hp]
  rcases h with h | h <;> simp [h]

/-- Witness for C5: a parser yielding a payload with no rooms key. -/
theorem missing_key_incomplete_schema_witness :
    (fun _ : String => (.ok ⟨some ⟨some (.intVal 1), some (.intVal 1)⟩, none⟩ : Except String PlanData))
        (strip_fences "") = .ok ⟨some ⟨some (.intVal 1), some (.intVal 1)⟩, none⟩ ∧
      generate_floor_plan_data
        (fun _ => .ok ⟨some ⟨some (.intVal 1), some (.intVal 1)⟩, none⟩) "" =
        .incompleteSchema schema_error_msg :=
  ⟨rfl, missing_key_incomplete_schema _ "" ⟨some ⟨some (.intVal 1), some (.intVal 1)⟩, none⟩
    rfl (Or.inr rfl)⟩

/-- C6: when the fence-stripped response text does not parse, the
validator returns the malformed failure carrying the parse diagnostic. -/
theorem unparseable_gives_malformed (parse : String → Except String PlanData)
    (txt e : String) (hp : parse (strip_fences txt) = .error e) :
    generate_floor_plan_data parse txt = .malformed e := by
  unfold generate_floor_plan_data
  rw [hp]

/-- Witness for C6: a parser that always fails with a fixed diagnostic. -/
theorem unparseable_gives_malformed_witness :
    (fun _ : String => (.error "unterminated" : Except String PlanData))
        (strip_fences "x") = .error "unterminated" ∧
      generate_floor_plan_data (fun _ => .error "unterminated") "x" =
        .malformed "unterminated" :=
  ⟨rfl, unparseable_gives_malformed _ "x" "unterminated" rfl⟩

/-- C9 counterexample: at float-typed dimensions 10.5 by 10.5 — positive
and present — a plan with no rooms key does fail: `Image.new` raises an
uncaught `TypeError`, so render does not return an image. -/
theorem absent_rooms_same_as_empty_cex :
    (0 : ℚ) < (PyNum.floatVal (21 / 2)).toRat ∧
      render_floor_plan true
          ⟨some ⟨some (.floatVal (21 / 2)), some (.floatVal (21 / 2))⟩, none⟩ =
        .typeError :=
  ⟨by norm_num [PyNum.toRat], rfl⟩

/-- C9 (amended): a plan with positive int-typed dimensions but no rooms
key renders exactly as the same plan with an empty rooms list: a non-null
white canvas with only the border stroke and no warnings; with a
float-typed dimension both plans instead fail at canvas creation. -/
theorem absent_rooms_same_as_empty (a : Bool) (l b : Int)
    (hl : 0 < l) (hb : 0 < b) :
    render_floor_plan a ⟨some ⟨some (.intVal l), some (.intVal b)⟩, none⟩ =
        render_floor_plan a
          ⟨some ⟨some (.intVal l), some (.intVal b)⟩, some []⟩ ∧
      render_floor_plan a ⟨some ⟨some (.intVal l), some (.intVal b)⟩, none⟩ =
        .image ⟨(l : ℚ) * scale, (b : ℚ) * scale, white,
          [DrawOp.rect 0 0 ((l : ℚ) * scale) ((b : ℚ) * scale) none black 3],
          []⟩ :=
  ⟨rfl, rfl⟩

/-- Witness for C9 at a concrete 5 by 5 foot plan. -/
theorem absent_rooms_same_as_empty_witness :
    (0 : Int) < 5 ∧
      (render_floor_plan true
            ⟨some ⟨some (.intVal 5), some (.intVal 5)⟩, none⟩ =
          render_floor_plan true
            ⟨some ⟨some (.intVal 5), some (.intVal 5)⟩, some []⟩ ∧
        render_floor_plan true
            ⟨some ⟨some (.intVal 5), some (.intVal 5)⟩, none⟩ =
          .image ⟨((5 : Int) : ℚ) * scale, ((5 : Int) : ℚ) * scale, white,
            [DrawOp.rect 0 0 (((5 : Int) : ℚ) * scale)
              (((5 : Int) : ℚ) * scale) none black 3], []⟩) :=
  ⟨by norm_num,
   absent_rooms_same_as_empty true 5 5 (by norm_num) (by norm_num)⟩

end FloorPlan
